import Mathlib

/-!
# Verification of the permission-authorization core

A shallow embedding of the permission computation engine of a chat-platform
client SDK: the `Permissions` 128-bit flag set (`src/models/permission.rs`),
the `Overwrite` allow/deny algebra, the ordered overwrite resolver
`compute_overwrites`, the split signed-64-bit encoding (`from_i64` / `to_i64`),
the polymorphic deserialization visitor, and the per-command required-permission
computation generated by the `command!` macro (`src/api/command.rs`,
instantiated for `CreateMessage` in `src/api/commands/room.rs`).

`Permissions` wraps a `u128` in the source (a `bitflags` type); here a
permission value is a `Nat` holding those 128 bits.  Every operation is
translated bit-exactly: the `bitflags` complement truncates to the defined
bits (`!p = all() & !bits`), `from_bits_truncate` masks with `all()`, and the
signed halves are two's-complement reinterpretations.  The `#[cfg(test)]`-only
`TEST` flag (bit 127) is not part of the shipped library and is omitted, so
the defined bits are exactly those of the non-test build.
-/

/-- `Snowflake` is an opaque 64-bit id defined in the `common` crate outside
this excerpt; the resolver only compares ids for equality and list membership,
so a bare `Nat` carries it faithfully. -/
abbrev Snowflake := Nat

/-- A permission value: the `bits: u128` payload of the `Permissions` bitflags
struct. -/
abbrev Permissions := Nat

namespace Permissions

/-- `ADMINISTRATOR = 1u128 << 0` -/
def ADMINISTRATOR : Permissions := 1 <<< 0
/-- `CREATE_INVITE = 1u128 << 1` -/
def CREATE_INVITE : Permissions := 1 <<< 1
/-- `KICK_MEMBERS = 1u128 << 2` -/
def KICK_MEMBERS : Permissions := 1 <<< 2
/-- `BAN_MEMBERS = 1u128 << 3` -/
def BAN_MEMBERS : Permissions := 1 <<< 3
/-- `VIEW_AUDIT_LOG = 1u128 << 4` -/
def VIEW_AUDIT_LOG : Permissions := 1 <<< 4
/-- `VIEW_STATISTICS = 1u128 << 5` -/
def VIEW_STATISTICS : Permissions := 1 <<< 5
/-- `MANAGE_PARTY = 1u128 << 6` -/
def MANAGE_PARTY : Permissions := 1 <<< 6
/-- `MANAGE_ROOMS = 1u128 << 7` -/
def MANAGE_ROOMS : Permissions := 1 <<< 7
/-- `MANAGE_NICKNAMES = 1u128 << 8` -/
def MANAGE_NICKNAMES : Permissions := 1 <<< 8
/-- `MANAGE_ROLES = 1u128 << 9` -/
def MANAGE_ROLES : Permissions := 1 <<< 9
/-- `MANAGE_WEBHOOKS = 1u128 << 10` -/
def MANAGE_WEBHOOKS : Permissions := 1 <<< 10
/-- `MANAGE_EXPRESSIONS = 1u128 << 11` -/
def MANAGE_EXPRESSIONS : Permissions := 1 <<< 11
/-- `MOVE_MEMBERS = 1u128 << 12` -/
def MOVE_MEMBERS : Permissions := 1 <<< 12
/-- `CHANGE_NICKNAME = 1u128 << 13` -/
def CHANGE_NICKNAME : Permissions := 1 <<< 13
/-- `MANAGE_PERMS = 1u128 << 14` -/
def MANAGE_PERMS : Permissions := 1 <<< 14
/-- `VIEW_ROOM = 1u128 << 30` -/
def VIEW_ROOM : Permissions := 1 <<< 30
/-- `READ_MESSAGE_HISTORY = 1u128 << 31 | VIEW_ROOM` -/
def READ_MESSAGE_HISTORY : Permissions := (1 <<< 31) ||| VIEW_ROOM
/-- `SEND_MESSAGES = 1u128 << 32 | VIEW_ROOM` -/
def SEND_MESSAGES : Permissions := (1 <<< 32) ||| VIEW_ROOM
/-- `MANAGE_MESSAGES = 1u128 << 33` -/
def MANAGE_MESSAGES : Permissions := 1 <<< 33
/-- `MUTE_MEMBERS = 1u128 << 34` -/
def MUTE_MEMBERS : Permissions := 1 <<< 34
/-- `DEAFEN_MEMBERS = 1u128 << 35` -/
def DEAFEN_MEMBERS : Permissions := 1 <<< 35
/-- `MENTION_EVERYONE = 1u128 << 36` -/
def MENTION_EVERYONE : Permissions := 1 <<< 36
/-- `USE_EXTERNAL_EMOTES = 1u128 << 37` -/
def USE_EXTERNAL_EMOTES : Permissions := 1 <<< 37
/-- `ADD_REACTIONS = 1u128 << 38` -/
def ADD_REACTIONS : Permissions := 1 <<< 38
/-- `EMBED_LINKS = 1u128 << 39` -/
def EMBED_LINKS : Permissions := 1 <<< 39
/-- `ATTACH_FILES = 1u128 << 40` -/
def ATTACH_FILES : Permissions := 1 <<< 40
/-- `USE_SLASH_COMMANDS = 1u128 << 41` -/
def USE_SLASH_COMMANDS : Permissions := 1 <<< 41
/-- `SEND_TTS_MESSAGES = 1u128 << 42` -/
def SEND_TTS_MESSAGES : Permissions := 1 <<< 42
/-- `EDIT_NEW_ATTACHMENT = 1u128 << 43` -/
def EDIT_NEW_ATTACHMENT : Permissions := 1 <<< 43
/-- `STREAM = 1u128 << 60` -/
def STREAM : Permissions := 1 <<< 60
/-- `CONNECT = 1u128 << 61` -/
def CONNECT : Permissions := 1 <<< 61
/-- `SPEAK = 1u128 << 62` -/
def SPEAK : Permissions := 1 <<< 62
/-- `PRIORITY_SPEAKER = 1u128 << 63` -/
def PRIORITY_SPEAKER : Permissions := 1 <<< 63

/-- `DEFAULT`: the composite constant, the union listed in the source. -/
def DEFAULT : Permissions :=
  CHANGE_NICKNAME ||| VIEW_ROOM ||| READ_MESSAGE_HISTORY ||| SEND_MESSAGES |||
  USE_EXTERNAL_EMOTES ||| ADD_REACTIONS ||| EMBED_LINKS ||| ATTACH_FILES |||
  SEND_TTS_MESSAGES ||| CONNECT ||| SPEAK

/-- `Permissions::empty()`: the zero value (generated by `bitflags`). -/
def empty : Permissions := 0

/-- `Permissions::all()`: the union of every defined flag (generated by
`bitflags`; the composite `DEFAULT` contributes no bits of its own). -/
def all : Permissions :=
  DEFAULT ||| ADMINISTRATOR ||| CREATE_INVITE ||| KICK_MEMBERS ||| BAN_MEMBERS |||
  VIEW_AUDIT_LOG ||| VIEW_STATISTICS ||| MANAGE_PARTY ||| MANAGE_ROOMS |||
  MANAGE_NICKNAMES ||| MANAGE_ROLES ||| MANAGE_WEBHOOKS ||| MANAGE_EXPRESSIONS |||
  MOVE_MEMBERS ||| CHANGE_NICKNAME ||| MANAGE_PERMS ||| VIEW_ROOM |||
  READ_MESSAGE_HISTORY ||| SEND_MESSAGES ||| MANAGE_MESSAGES ||| MUTE_MEMBERS |||
  DEAFEN_MEMBERS ||| MENTION_EVERYONE ||| USE_EXTERNAL_EMOTES ||| ADD_REACTIONS |||
  EMBED_LINKS ||| ATTACH_FILES ||| USE_SLASH_COMMANDS ||| SEND_TTS_MESSAGES |||
  EDIT_NEW_ATTACHMENT ||| STREAM ||| CONNECT ||| SPEAK ||| PRIORITY_SPEAKER

/-- `Permissions::contains(self, other)`: `(self.bits & other.bits) == other.bits`. -/
def contains (s m : Permissions) : Bool := s &&& m == m

/-- `Permissions::from_bits_truncate(raw)`: keep only the defined bits. -/
def from_bits_truncate (raw : Nat) : Permissions := raw &&& all

/-- The `bitflags`-generated complement: `!p = Self { bits: !p.bits } & all()`,
i.e. the defined bits not present in `p`.  For `p < 2^128` this equals
`all() & !p` computed in `u128`. -/
def pnot (p : Permissions) : Permissions := all ^^^ (p &&& all)

end Permissions

/-- `Overwrite`: a per-subject allow/deny pair; `id` is a role or user id. -/
structure Overwrite where
  id : Snowflake
  allow : Permissions
  deny : Permissions
deriving DecidableEq, Repr

namespace Overwrite

/-- `Overwrite::combine`: keep `self.id`, union the allow sets and the deny sets. -/
def combine (a b : Overwrite) : Overwrite :=
  { id := a.id, allow := a.allow ||| b.allow, deny := a.deny ||| b.deny }

/-- `Overwrite::apply`: `(base & !self.deny) | self.allow`. -/
def apply (ow : Overwrite) (base : Permissions) : Permissions :=
  (base &&& Permissions.pnot ow.deny) ||| ow.allow

end Overwrite

/-- State produced by the overwrite scan loop of `compute_overwrites`: the
accumulated role-level `allow` and `deny` unions and the optional user
overwrite, stored as the source stores it, a `(deny, allow)` pair. -/
structure ScanState where
  allow : Permissions
  deny : Permissions
  user_overwrite : Option (Permissions × Permissions)
deriving DecidableEq, Repr

/-- The `for overwrite in overwrites` loop of `Permissions::compute_overwrites`:
an overwrite whose id is in `roles` is accumulated and the scan continues;
otherwise, an overwrite whose id equals `user_id` is recorded as the user
overwrite and the loop `break`s; any other overwrite is skipped. -/
def scanOverwrites : List Overwrite → List Snowflake → Snowflake →
    Permissions → Permissions → ScanState
  | [], _, _, allow, deny => ⟨allow, deny, none⟩
  | ow :: rest, roles, user_id, allow, deny =>
    if ow.id ∈ roles then
      scanOverwrites rest roles user_id (allow ||| ow.allow) (deny ||| ow.deny)
    else if ow.id = user_id then
      ⟨allow, deny, some (ow.deny, ow.allow)⟩
    else
      scanOverwrites rest roles user_id allow deny

/-- `Permissions::compute_overwrites(self, overwrites, roles, user_id)`:
administrators get `all()` at once; otherwise the accumulated role deny is
stripped, the accumulated role allow added, and the user overwrite, when one
was found, applied the same way on top. -/
def Permissions.compute_overwrites (base : Permissions) (overwrites : List Overwrite)
    (roles : List Snowflake) (user_id : Snowflake) : Permissions :=
  if Permissions.contains base Permissions.ADMINISTRATOR then
    Permissions.all
  else
    let s := scanOverwrites overwrites roles user_id Permissions.empty Permissions.empty
    let b := (base &&& Permissions.pnot s.deny) ||| s.allow
    match s.user_overwrite with
    | none => b
    | some (user_deny, user_allow) => (b &&& Permissions.pnot user_deny) ||| user_allow

/-- Rust `u as u64 as i64`: reinterpret the low 64 bits of a `Nat` as a signed
two's-complement 64-bit integer. -/
def i64OfU64 (u : Nat) : Int :=
  if u % 2 ^ 64 < 2 ^ 63 then ((u % 2 ^ 64 : Nat) : Int)
  else ((u % 2 ^ 64 : Nat) : Int) - 2 ^ 64

/-- Rust `i as u64`: reinterpret a signed 64-bit integer as its unsigned
two's-complement bit pattern. -/
def u64OfI64 (i : Int) : Nat := (i % (2 ^ 64 : Int)).toNat

/-- Rust `i as u128` applied to a signed integer: sign-extension, i.e. the
value modulo `2^128`. -/
def u128OfInt (i : Int) : Nat := (i % (2 ^ 128 : Int)).toNat

/-- `Permissions::from_i64(low, high)`:
`from_bits_truncate(low as u64 as u128 | ((high as u64 as u128) << 64))`. -/
def Permissions.from_i64 (low high : Int) : Permissions :=
  Permissions.from_bits_truncate (u64OfI64 low ||| (u64OfI64 high <<< 64))

/-- `Permissions::from_i64_opt(low, high)`: missing halves count as zero. -/
def Permissions.from_i64_opt (low high : Option Int) : Permissions :=
  Permissions.from_i64 (low.getD 0) (high.getD 0)

/-- `Permissions::to_i64(self)`: `[bits as u64 as i64, (bits >> 64) as u64 as i64]`. -/
def Permissions.to_i64 (p : Permissions) : Int × Int :=
  (i64OfU64 p, i64OfU64 (p >>> 64))

/-- `Permissions::is_admin(self)`. -/
def Permissions.is_admin (p : Permissions) : Bool :=
  Permissions.contains p Permissions.ADMINISTRATOR

/-- Rust `str::parse::<u128>()` (`from_str_radix` in base 10): an optional
leading `+`, then one or more ASCII digits, value below `2^128`; the empty
string, a bare sign, a `-` sign (the target is unsigned), any non-digit, and
overflow all fail. -/
def parseU128 (s : String) : Option Nat :=
  match s.data with
  | [] => none
  | c :: rest =>
    let digits := if c = '+' then rest else c :: rest
    if digits.isEmpty then none
    else if digits.all Char.isDigit then
      let v := digits.foldl (fun acc d => acc * 10 + (d.toNat - 48)) 0
      if v < 2 ^ 128 then some v else none
    else none

/-- The shapes a self-describing deserializer can hand to the `Permissions`
visitor: the four integer visitor methods it implements (`visit_u128`,
`visit_u64`, `visit_i128`, `visit_i64`), a string (`visit_str`), or any other
shape (bool, float, sequence, ...), for which the default visitor methods
reject the value. -/
inductive SerdeValue where
  | uint128 (v : Nat)
  | uint64 (v : Nat)
  | int128 (v : Int)
  | int64 (v : Int)
  | str (s : String)
  | otherShape
deriving DecidableEq, Repr

/-- The `Deserialize` impl for `Permissions` (`deserialize_any` with
`PermissionsVisitor`): every integer shape goes through `from_bits_truncate`
(the signed ones after an `as u128` reinterpretation), a string is parsed as a
`u128` first, and anything else is a format error. -/
def deserializePermissions : SerdeValue → Except String Permissions
  | .uint128 v => .ok (Permissions.from_bits_truncate v)
  | .uint64 v => .ok (Permissions.from_bits_truncate v)
  | .int128 i => .ok (Permissions.from_bits_truncate (u128OfInt i))
  | .int64 i => .ok (Permissions.from_bits_truncate (u128OfInt i))
  | .str s =>
    match parseU128 s with
    | some bits => .ok (Permissions.from_bits_truncate bits)
    | none => .error "invalid numeric string"
  | .otherShape => .error "128-bit integer or numeric string"

/-- `Embed` is defined outside this excerpt; `CreateMessage::perms` inspects
only the emptiness of the `embeds` list, so the element type carries no data
here. -/
structure Embed where
deriving DecidableEq, Repr

/-- Body struct of the `CreateMessage` command (`CreateMessageBody`). -/
structure CreateMessageBody where
  content : String
  parent : Option Snowflake
  attachments : List Snowflake
  embeds : List Embed
  ephemeral : Bool
  tts : Bool
deriving DecidableEq, Repr

/-- The `CreateMessage` command struct generated by the `command!` macro:
path fields plus the flattened body. -/
structure CreateMessage where
  room_id : Snowflake
  body : CreateMessageBody
deriving DecidableEq, Repr

/-- `Command::perms` for `CreateMessage`, as the `command!` macro *actually*
expands it: the conditional block of the generated `perms` iterates only the
top-level path fields' `where ... if ...` clauses; the clauses the macro
captures on *body* fields (`ATTACH_FILES if !attachments.is_empty()`,
`EMBED_LINKS if !embeds.is_empty()`) are parsed but appear nowhere in the
expansion, and the body is destructured into unused bindings.  `CreateMessage`
has no conditional on its sole top-level field `room_id`, so the generated
function returns the declared base `perms!(SEND_MESSAGES)` unconditionally. -/
def CreateMessage.perms (_c : CreateMessage) : Permissions :=
  Permissions.SEND_MESSAGES

/-- Modelled from the spec: `required_permissions` for `CreateMessage` as the
spec describes it (base requirement, then each declared conditional rule
unioned in when its predicate holds over the instance's fields) — the rules
declared in the source are `ATTACH_FILES if !attachments.is_empty()` and
`EMBED_LINKS if !embeds.is_empty()`.  The generated code
(`CreateMessage.perms`) drops both conditional rules. -/
def CreateMessage.required_permissions_spec (c : CreateMessage) : Permissions :=
  let base := Permissions.SEND_MESSAGES
  let base := if !c.body.attachments.isEmpty then base ||| Permissions.ATTACH_FILES else base
  let base := if !c.body.embeds.isEmpty then base ||| Permissions.EMBED_LINKS else base
  base

/-! ## Helper lemmas -/

/-- A mask contained in `b` is contained in any union `a ||| b`. -/
lemma land_of_subset_lor {a b m : Nat} (h : b &&& m = m) : (a ||| b) &&& m = m := by
  apply Nat.eq_of_testBit_eq
  intro i
  have hb := congrArg (fun x => Nat.testBit x i) h
  simp only [Nat.testBit_land] at hb
  simp only [Nat.testBit_land, Nat.testBit_lor]
  cases hm : Nat.testBit m i with
  | false => simp
  | true =>
    rw [hm] at hb
    simp only [Bool.and_true] at hb ⊢
    simp [hb]

/-- Truncating to the defined bits is idempotent. -/
lemma from_bits_truncate_land_all (r : Nat) :
    Permissions.from_bits_truncate r &&& Permissions.all = Permissions.from_bits_truncate r := by
  unfold Permissions.from_bits_truncate
  apply Nat.eq_of_testBit_eq
  intro i
  simp [Nat.testBit_land, Bool.and_assoc]

/-! ## Claims -/

/-- C1: whenever the base permission set contains the `ADMINISTRATOR` bit,
`compute_overwrites` returns `all()` for every overwrite list, role list and
user id — the overwrites are never consulted. -/
theorem permissions_admin_bypass (base : Permissions) (overwrites : List Overwrite)
    (roles : List Snowflake) (user_id : Snowflake)
    (h : Permissions.contains base Permissions.ADMINISTRATOR = true) :
    Permissions.compute_overwrites base overwrites roles user_id = Permissions.all := by
  simp [Permissions.compute_overwrites, h]

/-- Witness for C1: a concrete administrator base with a hostile deny-all
overwrite still resolves to `all()`. -/
theorem permissions_admin_bypass_witness :
    Permissions.compute_overwrites Permissions.ADMINISTRATOR
      [⟨10, Permissions.empty, Permissions.all⟩] [10] 99 = Permissions.all :=
  permissions_admin_bypass Permissions.ADMINISTRATOR
    [⟨10, Permissions.empty, Permissions.all⟩] [10] 99 (by decide)

/-- C2 counterexample: with `base = VIEW_ROOM`, a role overwrite allowing
`SEND_MESSAGES`, a role overwrite denying it, both roles held, and a user id
matching no overwrite, the result is *not* `VIEW_ROOM` and *does* contain
`SEND_MESSAGES` — the accumulated deny is applied before the accumulated
allow, so the shared bit ends up granted, contradicting the claim. -/
theorem shared_bit_role_overwrite_counterexample :
    Permissions.compute_overwrites Permissions.VIEW_ROOM
        [⟨10, Permissions.SEND_MESSAGES, Permissions.empty⟩,
         ⟨11, Permissions.empty, Permissions.SEND_MESSAGES⟩]
        [10, 11] 99 ≠ Permissions.VIEW_ROOM ∧
    Permissions.contains
      (Permissions.compute_overwrites Permissions.VIEW_ROOM
        [⟨10, Permissions.SEND_MESSAGES, Permissions.empty⟩,
         ⟨11, Permissions.empty, Permissions.SEND_MESSAGES⟩]
        [10, 11] 99) Permissions.SEND_MESSAGES = true := by
  refine ⟨?_, by decide⟩
  decide

/-- C2 amended: in the claimed scenario the result equals `SEND_MESSAGES`
(which is `VIEW_ROOM` with bit 32 added): when the role-level allow union and
deny union share a bit, the bit is *allowed*, because step 3 strips the deny
union first and then adds the allow union. -/
theorem shared_bit_role_overwrite_allow_wins :
    Permissions.compute_overwrites Permissions.VIEW_ROOM
      [⟨10, Permissions.SEND_MESSAGES, Permissions.empty⟩,
       ⟨11, Permissions.empty, Permissions.SEND_MESSAGES⟩]
      [10, 11] 99 = Permissions.SEND_MESSAGES := by
  decide

/-- C6: `Overwrite::apply` is exactly `(base & !deny) | allow`, and an
overwrite whose allow and deny sets are the same mask `X` always yields a
result containing `X` — allow beats deny within one overwrite. -/
theorem overwrite_apply_formula :
    (∀ (ow : Overwrite) (base : Permissions),
      ow.apply base = (base &&& Permissions.pnot ow.deny) ||| ow.allow) ∧
    (∀ (i : Snowflake) (X base : Permissions),
      Permissions.contains (Overwrite.apply ⟨i, X, X⟩ base) X = true) := by
  refine ⟨fun ow base => rfl, fun i X base => ?_⟩
  simp only [Overwrite.apply, Permissions.contains, beq_iff_eq]
  exact land_of_subset_lor (by apply Nat.eq_of_testBit_eq; intro i; simp [Nat.testBit_land])

/-- C9: the scan loop tests role membership before user-id equality: an
overwrite whose id is one of the actor's roles is accumulated and scanning
continues — even when that id also equals the actor's user id, since the
`else if` is never reached — and an overwrite is recorded as the user
overwrite (stopping the scan) exactly when its id is not a role of the actor
and equals the user id. -/
theorem scan_checks_roles_before_user (roles : List Snowflake) (user_id : Snowflake)
    (ow : Overwrite) (rest : List Overwrite) (allow deny : Permissions) :
    (ow.id ∈ roles →
      scanOverwrites (ow :: rest) roles user_id allow deny =
        scanOverwrites rest roles user_id (allow ||| ow.allow) (deny ||| ow.deny)) ∧
    (ow.id ∉ roles → ow.id = user_id →
      scanOverwrites (ow :: rest) roles user_id allow deny =
        ⟨allow, deny, some (ow.deny, ow.allow)⟩) := by
  constructor
  · intro h
    simp [scanOverwrites, h]
  · intro h h2
    subst h2
    simp [scanOverwrites, h]

/-- Witness for C9, at an id that is simultaneously a role of the actor and
the actor's own user id: the overwrite is still treated as a role overwrite
and scanning continues. -/
theorem scan_checks_roles_before_user_witness :
    scanOverwrites [⟨5, Permissions.SEND_MESSAGES, Permissions.VIEW_ROOM⟩] [5] 5
        Permissions.empty Permissions.empty =
      scanOverwrites [] [5] 5 (Permissions.empty ||| Permissions.SEND_MESSAGES)
        (Permissions.empty ||| Permissions.VIEW_ROOM) :=
  (scan_checks_roles_before_user [5] 5 ⟨5, Permissions.SEND_MESSAGES, Permissions.VIEW_ROOM⟩
    [] Permissions.empty Permissions.empty).1 (by decide)

/-- C10: the `all()` bypass looks only at `base`: when `base` lacks
`ADMINISTRATOR`, the result is the ordinary scan-then-apply computation, even
if a matching overwrite's allow set contains `ADMINISTRATOR` — concretely,
granting `ADMINISTRATOR` through a role overwrite merely adds that one bit,
and does not escalate to `all()`. -/
theorem no_admin_no_escalation :
    (∀ (base : Permissions) (overwrites : List Overwrite) (roles : List Snowflake)
        (user_id : Snowflake),
      Permissions.contains base Permissions.ADMINISTRATOR = false →
      Permissions.compute_overwrites base overwrites roles user_id =
        (let s := scanOverwrites overwrites roles user_id Permissions.empty Permissions.empty
         let b := (base &&& Permissions.pnot s.deny) ||| s.allow
         match s.user_overwrite with
         | none => b
         | some (user_deny, user_allow) =>
           (b &&& Permissions.pnot user_deny) ||| user_allow)) ∧
    Permissions.compute_overwrites Permissions.VIEW_ROOM
        [⟨10, Permissions.ADMINISTRATOR, Permissions.empty⟩] [10] 99 =
      Permissions.VIEW_ROOM ||| Permissions.ADMINISTRATOR ∧
    Permissions.VIEW_ROOM ||| Permissions.ADMINISTRATOR ≠ Permissions.all := by
  refine ⟨?_, by decide, by decide⟩
  intro base overwrites roles user_id h
  simp [Permissions.compute_overwrites, h]

/-- Witness for C10: the general part applied at a concrete non-admin base
and an empty overwrite list. -/
theorem no_admin_no_escalation_witness :
    Permissions.compute_overwrites Permissions.VIEW_ROOM [] [] 0 =
      ((Permissions.VIEW_ROOM &&& Permissions.pnot Permissions.empty) |||
        Permissions.empty) := by
  have h := no_admin_no_escalation.1 Permissions.VIEW_ROOM [] [] 0 (by decide)
  simpa [scanOverwrites] using h

/-- C3: when the base set lacks both `ADMINISTRATOR` and `SEND_MESSAGES`, a
role overwrite held by the actor denies `SEND_MESSAGES`, and a later
user-matching overwrite allows it, the result of `compute_overwrites`
contains `SEND_MESSAGES`: the user overwrite is applied after the combined
role overwrites and wins. -/
theorem user_overwrite_precedence (base : Permissions) (r u : Snowflake)
    (rAllow rDeny uAllow uDeny : Permissions) (roles : List Snowflake)
    (hAdmin : Permissions.contains base Permissions.ADMINISTRATOR = false)
    (_hBase : Permissions.contains base Permissions.SEND_MESSAGES = false)
    (hr : r ∈ roles) (hu : u ∉ roles)
    (_hDeny : Permissions.contains rDeny Permissions.SEND_MESSAGES = true)
    (hAllow : Permissions.contains uAllow Permissions.SEND_MESSAGES = true) :
    Permissions.contains
      (Permissions.compute_overwrites base
        [⟨r, rAllow, rDeny⟩, ⟨u, uAllow, uDeny⟩] roles u)
      Permissions.SEND_MESSAGES = true := by
  have hA : ¬(base &&& Permissions.ADMINISTRATOR = Permissions.ADMINISTRATOR) := by
    simpa [Permissions.contains] using hAdmin
  simp only [Permissions.contains, beq_iff_eq] at hAllow ⊢
  simp [Permissions.compute_overwrites, scanOverwrites, Permissions.contains,
    hA, hr, hu]
  exact land_of_subset_lor hAllow

/-- Witness for C3: a concrete base of `VIEW_ROOM`, one role overwrite
denying `SEND_MESSAGES` and one user overwrite allowing it. -/
theorem user_overwrite_precedence_witness :
    Permissions.contains
      (Permissions.compute_overwrites Permissions.VIEW_ROOM
        [⟨10, Permissions.empty, Permissions.SEND_MESSAGES⟩,
         ⟨77, Permissions.SEND_MESSAGES, Permissions.empty⟩] [10] 77)
      Permissions.SEND_MESSAGES = true :=
  user_overwrite_precedence Permissions.VIEW_ROOM 10 77 Permissions.empty
    Permissions.SEND_MESSAGES Permissions.SEND_MESSAGES Permissions.empty [10]
    (by decide) (by decide) (by decide) (by decide) (by decide) (by decide)

/-- Once the scan has reached an overwrite whose id is not one of the actor's
roles but equals the actor's user id, it stops; the entries after that point
are never read. -/
lemma scanOverwrites_ignores_after_user (pre : List Overwrite) (roles : List Snowflake)
    (user_id : Snowflake) (ow : Overwrite) (rest rest' : List Overwrite)
    (h : ow.id ∉ roles) (h2 : ow.id = user_id) :
    ∀ allow deny : Permissions,
      scanOverwrites (pre ++ ow :: rest) roles user_id allow deny =
        scanOverwrites (pre ++ ow :: rest') roles user_id allow deny := by
  subst h2
  induction pre with
  | nil =>
    intro allow deny
    simp [scanOverwrites, h]
  | cons p pre ih =>
    intro allow deny
    by_cases hp : p.id ∈ roles
    · simp only [List.cons_append, scanOverwrites, hp, if_pos]
      exact ih _ _
    · by_cases hpu : p.id = ow.id
      · simp [List.cons_append, scanOverwrites, hp, hpu, h]
      · simp only [List.cons_append, scanOverwrites, hp, Bool.false_eq_true, if_false, hpu,
          if_neg]
        exact ih _ _

/-- C4: the resolution result never depends on what follows the first
overwrite recorded as the user overwrite: for any entry whose id is not one
of the actor's roles and equals the actor's user id, replacing the tail after
it by anything at all leaves `compute_overwrites` unchanged. -/
theorem compute_overwrites_ignores_after_user (base : Permissions)
    (pre rest rest' : List Overwrite) (ow : Overwrite) (roles : List Snowflake)
    (user_id : Snowflake) (h : ow.id ∉ roles) (h2 : ow.id = user_id) :
    Permissions.compute_overwrites base (pre ++ ow :: rest) roles user_id =
      Permissions.compute_overwrites base (pre ++ ow :: rest') roles user_id := by
  unfold Permissions.compute_overwrites
  rw [scanOverwrites_ignores_after_user pre roles user_id ow rest rest' h h2]

/-- Witness for C4: an overwrite list whose tail after the user-matching
entry holds a deny-all entry for one of the actor's roles resolves exactly
like the list with an empty tail. -/
theorem compute_overwrites_ignores_after_user_witness :
    Permissions.compute_overwrites Permissions.VIEW_ROOM
        [⟨10, Permissions.SEND_MESSAGES, Permissions.empty⟩,
         ⟨77, Permissions.empty, Permissions.empty⟩,
         ⟨10, Permissions.empty, Permissions.all⟩] [10] 77 =
      Permissions.compute_overwrites Permissions.VIEW_ROOM
        [⟨10, Permissions.SEND_MESSAGES, Permissions.empty⟩,
         ⟨77, Permissions.empty, Permissions.empty⟩] [10] 77 :=
  compute_overwrites_ignores_after_user Permissions.VIEW_ROOM
    [⟨10, Permissions.SEND_MESSAGES, Permissions.empty⟩]
    [⟨10, Permissions.empty, Permissions.all⟩] []
    ⟨77, Permissions.empty, Permissions.empty⟩ [10] 77 (by decide) rfl

/-- C8 (code bug): because the `command!` macro never expands the body-field
conditional clauses, the generated `CreateMessage::perms` returns the base
`SEND_MESSAGES` for *every* instance; in particular the command carrying one
attachment still yields a set without `ATTACH_FILES`, contrary to the
`where ATTACH_FILES if !attachments.is_empty()` rule declared on the field —
which the spec-modelled `required_permissions_spec` does honour at the same
input. -/
theorem create_message_perms_missing_attach_files :
    (∀ c : CreateMessage, c.perms = Permissions.SEND_MESSAGES) ∧
    Permissions.contains
        (CreateMessage.perms ⟨1, ⟨"hi", none, [2], [], false, false⟩⟩)
        Permissions.ATTACH_FILES = false ∧
    Permissions.contains
        (CreateMessage.required_permissions_spec ⟨1, ⟨"hi", none, [2], [], false, false⟩⟩)
        Permissions.ATTACH_FILES = true :=
  ⟨fun _ => rfl, by decide, by decide⟩

/-- Reinterpreting a 64-bit unsigned value as signed and back is the
identity. -/
lemma u64_i64_roundtrip (u : Nat) (h : u < 2 ^ 64) : u64OfI64 (i64OfU64 u) = u := by
  unfold i64OfU64 u64OfI64
  rw [Nat.mod_eq_of_lt h]
  by_cases h63 : u < 2 ^ 63 <;> simp only [h63, if_true, if_false, reduceIte] <;> omega

/-- C5: for every permission value whose bits lie within the defined flag
bits, reassembling the two signed 64-bit halves produced by `to_i64` with
`from_i64` yields the value back. -/
theorem split_encoding_roundtrip (v : Permissions) (h : v &&& Permissions.all = v) :
    Permissions.from_i64 (Permissions.to_i64 v).1 (Permissions.to_i64 v).2 = v := by
  have hle : v ≤ Permissions.all := by
    calc v = v &&& Permissions.all := h.symm
    _ ≤ Permissions.all := Nat.and_le_right
  have h64 : v < 2 ^ 64 := lt_of_le_of_lt hle (by decide)
  have hsh : v >>> 64 = 0 := by
    rw [Nat.shiftRight_eq_div_pow]
    exact Nat.div_eq_of_lt h64
  have hlor : ∀ n : Nat, n ||| 0 = n := fun n => by
    apply Nat.eq_of_testBit_eq
    intro i
    simp [Nat.testBit_lor]
  simp only [Permissions.to_i64, Permissions.from_i64, hsh]
  rw [u64_i64_roundtrip v h64, u64_i64_roundtrip 0 (by decide)]
  rw [Nat.zero_shiftLeft, hlor]
  exact h

/-- Witness for C5: the public `DEFAULT` permission set survives the
round trip through its two signed halves. -/
theorem split_encoding_roundtrip_witness :
    Permissions.DEFAULT &&& Permissions.all = Permissions.DEFAULT ∧
    Permissions.from_i64 (Permissions.to_i64 Permissions.DEFAULT).1
      (Permissions.to_i64 Permissions.DEFAULT).2 = Permissions.DEFAULT :=
  ⟨by decide, split_encoding_roundtrip Permissions.DEFAULT (by decide)⟩

set_option maxRecDepth 4000 in
/-- C7 counterexample: the string `"-1"` is integer-shaped — the very same
integer is accepted when presented as a signed 64-bit value, where its
two's-complement bits truncate to `all()` — yet the string path parses with
`u128::from_str`, which rejects a minus sign, so deserialization fails. -/
theorem deserialize_negative_string_rejected :
    deserializePermissions (.str "-1") = .error "invalid numeric string" ∧
    deserializePermissions (.int64 (-1)) = .ok Permissions.all := by
  constructor
  · rfl
  · rfl

/-- C7 amended: deserialization accepts unsigned 128-bit, unsigned 64-bit,
signed 128-bit and signed 64-bit integers (the signed ones by sign-extending
reinterpretation), always through `from_bits_truncate` and never failing on
unknown bits; a string is accepted exactly when it parses as an *unsigned*
base-10 integer below `2^128` (an optional leading `+`, digits only — signed
or overflowing numeric strings are rejected); every other shape fails; and
every successful result lies within the defined bits. -/
theorem deserialize_shape_characterization :
    (∀ v : Nat,
      deserializePermissions (.uint128 v) = .ok (Permissions.from_bits_truncate v) ∧
      deserializePermissions (.uint64 v) = .ok (Permissions.from_bits_truncate v)) ∧
    (∀ i : Int,
      deserializePermissions (.int128 i) =
        .ok (Permissions.from_bits_truncate (u128OfInt i)) ∧
      deserializePermissions (.int64 i) =
        .ok (Permissions.from_bits_truncate (u128OfInt i))) ∧
    (∀ s : String,
      (∃ p, deserializePermissions (.str s) = .ok p) ↔ ∃ n, parseU128 s = some n) ∧
    (∀ s n, parseU128 s = some n →
      deserializePermissions (.str s) = .ok (Permissions.from_bits_truncate n)) ∧
    (∀ p, deserializePermissions .otherShape ≠ .ok p) ∧
    (∀ inp p, deserializePermissions inp = .ok p → p &&& Permissions.all = p) := by
  refine ⟨fun v => ⟨rfl, rfl⟩, fun i => ⟨rfl, rfl⟩, ?_, ?_, ?_, ?_⟩
  · intro s
    cases hp : parseU128 s <;> simp [deserializePermissions, hp]
  · intro s n hp
    simp [deserializePermissions, hp]
  · intro p
    simp [deserializePermissions]
  · intro inp p h
    cases inp with
    | uint128 v =>
      simp only [deserializePermissions, Except.ok.injEq] at h
      subst h; exact from_bits_truncate_land_all v
    | uint64 v =>
      simp only [deserializePermissions, Except.ok.injEq] at h
      subst h; exact from_bits_truncate_land_all v
    | int128 i =>
      simp only [deserializePermissions, Except.ok.injEq] at h
      subst h; exact from_bits_truncate_land_all (u128OfInt i)
    | int64 i =>
      simp only [deserializePermissions, Except.ok.injEq] at h
      subst h; exact from_bits_truncate_land_all (u128OfInt i)
    | str s =>
      revert h
      cases hp : parseU128 s with
      | none => simp [deserializePermissions, hp]
      | some n =>
        intro h
        simp only [deserializePermissions, hp, Except.ok.injEq] at h
        subst h; exact from_bits_truncate_land_all n
    | otherShape => simp [deserializePermissions] at h

/-- Witness for C7 (amended): the decimal string `"42"` deserializes to the
truncation of `42`. -/
theorem deserialize_shape_characterization_witness :
    deserializePermissions (.str "42") = .ok (Permissions.from_bits_truncate 42) :=
  deserialize_shape_characterization.2.2.2.1 "42" 42 (by decide)
